import Mathlib

/-!
Shallow embedding of the GitMonitor daemon (Rust sources under
src/application) and proofs about its retry policy, git sync operations,
worker cycle, shared daemon state and exit codes.

External effects (child git processes, the tokio runtime, disk persistence)
are modelled as explicit parameters: each embedded function takes the
results the external world would return and computes exactly what the Rust
code computes from them.
-/

namespace GitMonitor

/-- Error kinds from dusa_collection_utils that the sources use. -/
inductive Errors where
  | GeneralError
  | Git
  | ReadingFile
  deriving DecidableEq, Repr

/-- Mirror of dusa ErrorArrayItem: an error kind plus a message. -/
structure ErrorArrayItem where
  err_type : Errors
  err_mesg : String
  deriving DecidableEq, Repr

/-- Mirror of std::process::Output: exit-status success flag, stdout, stderr. -/
structure Output where
  success : Bool
  stdout : String
  stderr : String
  deriving DecidableEq, Repr

/-- Structural prefix test on char lists (pattern first). -/
def hasPrefixChars : List Char → List Char → Bool
  | [], _ => true
  | _ :: _, [] => false
  | a :: as, b :: bs => a == b && hasPrefixChars as bs

/-- Structural infix test on char lists (pattern first). -/
def hasInfixChars (pat : List Char) : List Char → Bool
  | [] => pat.isEmpty
  | c :: rest => hasPrefixChars pat (c :: rest) || hasInfixChars pat rest

/-- Embedding of Rust str::contains for literal patterns. -/
def containsSubstr (s pat : String) : Bool :=
  hasInfixChars pat.data s.data

/-- Embedding of Rust str::trim (used on rev-parse output). -/
def strTrim (s : String) : String :=
  ⟨((s.data.dropWhile Char.isWhitespace).reverse.dropWhile Char.isWhitespace).reverse⟩

/-- The substring pull.rs line 99 looks for in an error message. -/
def safeDirMarker : String := "safe directory"

/-- The marker pull.rs line 77 looks for in pull output. -/
def upToDateMarker : String := "Already up to date."

/-! ## Retry & Classification Policy (src/application/pull.rs) -/

/-- pull.rs line 13: maximum number of retries. -/
def MAX_RETRIES : Nat := 3

/-- pull.rs line 14: delay between retries in seconds. -/
def RETRY_DELAY_SECS : Nat := 3

/-- Environment of one pull_updates invocation: for iteration i of the loop,
the result the external git tool returns for the pull attempt, and the
results of set_safe_directory and fetch_updates should remediation run
during that iteration. -/
structure PullEnv where
  pullResults : Nat → Except ErrorArrayItem (Option Output)
  safeResults : Nat → Except ErrorArrayItem Unit
  fetchResults : Nat → Except ErrorArrayItem Unit

/-- Embedding of handle_pull_output (pull.rs lines 74-88): no output or
output containing the up-to-date marker means no new data (false), any
other output means new data (true); never an error. -/
def handle_pull_output (output : Option Output) : Except ErrorArrayItem Bool :=
  match output with
  | some data =>
      if containsSubstr data.stdout upToDateMarker = true then
        Except.ok false
      else
        Except.ok true
  | none => Except.ok false

/-- Embedding of handle_pull_error (pull.rs lines 90-112) at iteration i.
Returns (what the Rust function returns, the error array after its
mutations). Some means the main loop returns that result; none means the
main loop retries after a delay. The error e was already pushed by the
caller. -/
def handle_pull_error (env : PullEnv) (i : Nat) (e : ErrorArrayItem)
    (ea : List ErrorArrayItem) :
    Option (Except (List ErrorArrayItem) Bool) × List ErrorArrayItem :=
  if e.err_type = Errors.GeneralError then
    (some (Except.ok true), ea)
  else if containsSubstr e.err_mesg safeDirMarker = true then
    let ea1 := match env.safeResults i with
      | Except.ok _ => ea
      | Except.error se => ea ++ [se]
    let ea2 := match env.fetchResults i with
      | Except.ok _ => ea1
      | Except.error fe => ea1 ++ [fe]
    (none, ea2)
  else
    (some (Except.error ea), ea)

/-- The error pushed at pull.rs lines 43-46 when the retry budget is hit. -/
def maxReachedError (path : String) : ErrorArrayItem :=
  ⟨Errors.Git, "Maximum retry attempts reached for: " ++ path⟩

/-- Observable outcome of one pull_updates invocation: the returned result,
the number of pull attempts executed, the number of fixed 3-second sleeps
performed, and the final value of the retries counter (budget consumed). -/
structure PullRun where
  result : Except (List ErrorArrayItem) Bool
  attempts : Nat
  delays : Nat
  retries : Nat
  deriving Repr

/-- Embedding of the loop of pull_updates (pull.rs lines 21-71). i is the
iteration index (equal to the Rust retries counter at iteration entry) and
remaining = MAX_RETRIES - retries, so the Rust guard retries >= MAX_RETRIES
is remaining = 0. On a pull error the loop pushes the error, returns
terminally once the budget is exhausted, otherwise classifies the error:
a Some result from handle_pull_error is returned as is, a none result
remediates, sleeps RETRY_DELAY_SECS and loops with retries incremented. -/
def pull_loop (env : PullEnv) (path : String) (i : Nat) (remaining : Nat)
    (ea : List ErrorArrayItem) : PullRun :=
  match env.pullResults i with
  | Except.ok output =>
      match handle_pull_output output with
      | Except.ok d => ⟨Except.ok d, i + 1, i, MAX_RETRIES - remaining⟩
      | Except.error e => ⟨Except.error (ea ++ [e]), i + 1, i, MAX_RETRIES - remaining⟩
  | Except.error e =>
      let ea1 := ea ++ [e]
      match remaining with
      | 0 => ⟨Except.error (ea1 ++ [maxReachedError path]), i + 1, i, MAX_RETRIES⟩
      | r + 1 =>
          match handle_pull_error env i e ea1 with
          | (some res, _) => ⟨res, i + 1, i, MAX_RETRIES - (r + 1)⟩
          | (none, ea2) => pull_loop env path (i + 1) r ea2

/-- Embedding of pull_updates (pull.rs lines 16-72): run the loop from an
empty error array with the full retry budget. -/
def pull_updates (env : PullEnv) (path : String) : PullRun :=
  pull_loop env path 0 MAX_RETRIES []

/-- A pull failure that is neither a generic error nor a safe-directory
rejection (an authentication failure, Errors::Git kind). -/
def authErr : ErrorArrayItem := ⟨Errors.Git, "authentication failed"⟩

/-- A pull failure whose message names the safe-directory rejection. -/
def safeErr : ErrorArrayItem :=
  ⟨Errors.Git, "fatal: unsafe repository, add an exception for this safe directory"⟩

/-- A pull output that does not contain the up-to-date marker. -/
def updOut : Output := ⟨true, "Updating 1111aaa..2222bbb\nFast-forward", ""⟩

/-- Environment in which every pull attempt fails with authErr and
remediation primitives would succeed. -/
def envAuth : PullEnv :=
  ⟨fun _ => Except.error authErr, fun _ => Except.ok (), fun _ => Except.ok ()⟩

/-- Environment in which the first pull attempt fails with the
safe-directory rejection, remediation succeeds, and the second attempt
succeeds with changed data. -/
def envSafe : PullEnv :=
  ⟨fun i => if i = 0 then Except.error safeErr else Except.ok (some updOut),
   fun _ => Except.ok (), fun _ => Except.ok ()⟩

/-- Environment in which every pull attempt fails with the safe-directory
rejection and remediation always succeeds. -/
def envSafeLoop : PullEnv :=
  ⟨fun _ => Except.error safeErr, fun _ => Except.ok (), fun _ => Except.ok ()⟩

/-! ## Git Sync Operations (src/application/git.rs) -/

/-- Embedding of fetch_updates (git.rs lines 134-170). token is the cached
GitHub token (none when init failed); output is the result of spawning the
git fetch child process. The Rust function errors when the token is
missing, when the spawn fails, or when git exits unsuccessfully. -/
def fetch_updates (token : Option String) (output : Except String Output) :
    Except ErrorArrayItem Unit :=
  match token with
  | none => Except.error ⟨Errors.Git, "GitHub token not initialized"⟩
  | some _ =>
      match output with
      | Except.ok out =>
          if out.success = true then Except.ok ()
          else Except.error ⟨Errors.Git, "git fetch failed: " ++ out.stderr⟩
      | Except.error e => Except.error ⟨Errors.Git, e⟩

/-- Embedding of is_remote_ahead (git.rs lines 173-208). local and remote
are the results of spawning the two rev-parse child processes; a spawn
failure propagates with the question-mark operator, while a spawned
process result has its stdout lossily decoded and trimmed and the two
strings compared — the exit status of the rev-parse processes is never
inspected. -/
def is_remote_ahead (localRes remoteRes : Except String Output) :
    Except String Bool :=
  match localRes with
  | Except.error e => Except.error e
  | Except.ok lo =>
      match remoteRes with
      | Except.error e => Except.error e
      | Except.ok ro =>
          Except.ok (!(strTrim lo.stdout == strTrim ro.stdout))

/-- Decidable error test on an Except value. -/
def exceptIsError {ε α : Type} : Except ε α → Bool
  | Except.error _ => true
  | Except.ok _ => false

/-- Primitive git operations a worker cycle can perform, in trace order. -/
inductive GitOp where
  | ensureSafe
  | openRepo
  | fetch
  | compareAhead
  | checkout
  | pull
  | clone
  | setOwner
  deriving DecidableEq, Repr

/-- Environment for handle_existing_repo: results of fetch_updates,
is_remote_ahead, checkout_branch and pull_latest_changes. -/
structure ExistingEnv where
  fetchRes : Except ErrorArrayItem Unit
  aheadRes : Except String Bool
  checkoutRes : Except ErrorArrayItem Unit
  pullRes : Except ErrorArrayItem Unit

/-- Outcome kind of one cycle body, matching the log lines of git.rs. -/
inductive SyncKind where
  | updated
  | upToDate
  | cloned
  deriving DecidableEq, Repr

/-- Embedding of handle_existing_repo (git.rs lines 21-57): fetch, then
compare local with remote; if the remote is ahead run checkout_branch and
then pull_latest_changes; otherwise report up to date. Returns the result
together with the trace of operations performed. -/
def handle_existing_repo (env : ExistingEnv) :
    Except ErrorArrayItem SyncKind × List GitOp :=
  match env.fetchRes with
  | Except.error e => (Except.error e, [GitOp.fetch])
  | Except.ok _ =>
      match env.aheadRes with
      | Except.error e =>
          (Except.error ⟨Errors.Git, e⟩, [GitOp.fetch, GitOp.compareAhead])
      | Except.ok true =>
          match env.checkoutRes with
          | Except.error e =>
              (Except.error e, [GitOp.fetch, GitOp.compareAhead, GitOp.checkout])
          | Except.ok _ =>
              match env.pullRes with
              | Except.error e =>
                  (Except.error e,
                   [GitOp.fetch, GitOp.compareAhead, GitOp.checkout, GitOp.pull])
              | Except.ok _ =>
                  (Except.ok SyncKind.updated,
                   [GitOp.fetch, GitOp.compareAhead, GitOp.checkout, GitOp.pull])
      | Except.ok false =>
          (Except.ok SyncKind.upToDate, [GitOp.fetch, GitOp.compareAhead])

/-- Environment for handle_new_repo: results of clone_repo, the ownership
change, set_safe_directory and checkout_branch. -/
structure NewEnv where
  cloneRes : Except ErrorArrayItem Unit
  ownerRes : Except ErrorArrayItem Unit
  safeRes : Except ErrorArrayItem Unit
  checkoutRes : Except ErrorArrayItem Unit

/-- Embedding of handle_new_repo (git.rs lines 59-81): clone, set
ownership, set safe directory, checkout, each aborting on error. -/
def handle_new_repo (env : NewEnv) :
    Except ErrorArrayItem SyncKind × List GitOp :=
  match env.cloneRes with
  | Except.error e => (Except.error e, [GitOp.clone])
  | Except.ok _ =>
      match env.ownerRes with
      | Except.error e => (Except.error e, [GitOp.clone, GitOp.setOwner])
      | Except.ok _ =>
          match env.safeRes with
          | Except.error e =>
              (Except.error e, [GitOp.clone, GitOp.setOwner, GitOp.ensureSafe])
          | Except.ok _ =>
              match env.checkoutRes with
              | Except.error e =>
                  (Except.error e,
                   [GitOp.clone, GitOp.setOwner, GitOp.ensureSafe, GitOp.checkout])
              | Except.ok _ =>
                  (Except.ok SyncKind.cloned,
                   [GitOp.clone, GitOp.setOwner, GitOp.ensureSafe, GitOp.checkout])

/-- Environment for one repo_worker loop body: result of the initial
set_safe_directory call, whether Repository::open succeeds, and the
environments of the existing-repo and new-repo branches. -/
structure CycleEnv where
  safeRes : Except ErrorArrayItem Unit
  openOk : Bool
  existing : ExistingEnv
  newEnv : NewEnv

/-- Embedding of the body of repo_worker (main.rs lines 234-256): call
set_safe_directory (an error is only logged, the cycle continues), open
the repository, and dispatch to handle_existing_repo on success or
handle_new_repo on failure. Returns the cycle result and the operation
trace. -/
def repo_worker_cycle (env : CycleEnv) :
    Except ErrorArrayItem SyncKind × List GitOp :=
  let pre : List GitOp := [GitOp.ensureSafe, GitOp.openRepo]
  if env.openOk = true then
    let res := handle_existing_repo env.existing
    (res.1, pre ++ res.2)
  else
    let res := handle_new_repo env.newEnv
    (res.1, pre ++ res.2)

/-! ## Shared Daemon State (src/application/config.rs, main.rs) -/

/-- Mirror of the aggregator Status values the sources use. -/
inductive Status where
  | Starting
  | Idle
  | Running
  | Stopped
  deriving DecidableEq, Repr

/-- The slice of AppConfig the embedded functions read or write: debug
mode, the optional git section (carrying the credentials file path), log
level, environment, aggregator section, application name and database
section. -/
structure ConfigBits where
  debug_mode : Bool
  git : Option String
  log_level : Nat
  environment : String
  aggregator : Option String
  app_name : String
  database : Option String
  deriving DecidableEq, Repr

/-- Mirror of artisan_middleware AppState with the fields the sources
touch. Timestamps are seconds as natural numbers, the version pair is
collapsed to a string. -/
structure AppState where
  name : String
  version : String
  data : String
  last_updated : Nat
  stared_at : Nat
  event_counter : Nat
  pid : Nat
  error_log : List ErrorArrayItem
  config : ConfigBits
  system_application : Bool
  status : Status
  stdout : List String
  stderr : List String
  deriving DecidableEq, Repr

/-- Modelled from the spec: update_state of artisan_middleware (not under
src/) persists the state record to disk after every mutation; persistence
is fire-and-forget and leaves the in-memory state unchanged, so in the
embedding it is the identity. -/
def update_state (s : AppState) : AppState := s

/-- Capacity constant of config.rs line 119. -/
def error_array_max_size : Nat := 5

/-- Description written by config.rs lines 121-124 when truncating (the
spelling of the source is kept). -/
def truncMsg (n : Nat) : String :=
  "The error log has a legnth of " ++ toString n ++ ". Truncating..."

/-- Embedding of update_state_wrapper (config.rs lines 99-129): when the
error log is strictly longer than 5 entries, rewrite the description to
note truncation and truncate the log to its first 5 entries (Vec::truncate
keeps the front, discarding the newest entries), then persist. -/
def update_state_wrapper (s : AppState) : AppState :=
  let s1 :=
    if error_array_max_size < s.error_log.length then
      { s with
        data := truncMsg s.error_log.length,
        error_log := s.error_log.take error_array_max_size }
    else s
  update_state s1

/-- Modelled from the spec: log_error of artisan_middleware (not under
src/) records a cycle failure by appending it to the bounded error log of
the shared state and persisting; it does not touch the event counter. -/
def log_error (s : AppState) (e : ErrorArrayItem) : AppState :=
  update_state { s with error_log := s.error_log ++ [e] }

/-- Embedding of the fold-in step of repo_worker (main.rs lines 258-266):
on a failed cycle call log_error; on a successful cycle increment the
event counter, set the description and run update_state_wrapper. -/
def repo_worker_fold (s : AppState) (result : Except ErrorArrayItem SyncKind)
    (repoId : String) : AppState :=
  match result with
  | Except.error err => log_error s err
  | Except.ok _ =>
      update_state_wrapper
        { s with
          event_counter := s.event_counter + 1,
          data := "Updated: " ++ repoId }

/-- Version string the daemon stamps into the state (config.rs lines
35-44 build it from the library and package versions). -/
def currentVersion : String := "app+lib"

/-- Package name constant standing for env CARGO_PKG_NAME. -/
def pkgName : String := "gitmon"

/-- Embedding of generate_state (config.rs lines 26-93). loaded is the
result of StatePersistence::load_state; now and pid stand for
current_timestamp and process::id. On a loaded state the listed fields
are overwritten — in particular the error log is cleared and the event
counter reset to 0 — and on a load failure a fresh state is built. -/
def generate_state (loaded : Except String AppState) (config : ConfigBits)
    (now : Nat) (pid : Nat) : AppState :=
  match loaded with
  | Except.ok ld =>
      update_state
        { ld with
          data := "Initializing",
          config :=
            { ld.config with
              debug_mode := config.debug_mode,
              git := config.git,
              log_level := config.log_level,
              aggregator := config.aggregator,
              environment := config.environment },
          version := currentVersion,
          last_updated := now,
          stared_at := now,
          pid := pid,
          error_log := [],
          event_counter := 0 }
  | Except.error _ =>
      update_state
        { name := pkgName,
          version := currentVersion,
          data := "Initializing",
          last_updated := now,
          stared_at := now,
          event_counter := 0,
          pid := pid,
          error_log := [],
          config :=
            { config with
              debug_mode := true,
              log_level := config.log_level,
              environment := config.environment },
          system_application := true,
          status := Status.Starting,
          stdout := [],
          stderr := [] }

/-! ## Startup and exit paths (config.rs get_config, main.rs async_main) -/

/-- Embedding of get_config (config.rs lines 13-24): on a successful load
the app name is set and the database section dropped; on a load failure
the process exits with code 0 (std::process::exit(0) at line 18),
modelled as Except.error carrying the exit code. -/
def get_config (loadRes : Except String ConfigBits) : Except Nat ConfigBits :=
  match loadRes with
  | Except.ok c => Except.ok { c with app_name := pkgName, database := none }
  | Except.error _ => Except.error 0

/-- Embedding of get_git_credentials (main.rs lines 163-174): a missing
git config section is a ReadingFile error; otherwise the result of
GitCredentials::new on the credentials file is returned as is. -/
def get_git_credentials (git : Option String)
    (loadRes : Except ErrorArrayItem (List String)) :
    Except ErrorArrayItem (List String) :=
  match git with
  | some _ => loadRes
  | none => Except.error ⟨Errors.ReadingFile, "Git configuration not found"⟩

/-- Embedding of the startup section of async_main (main.rs lines 37-119):
load the configuration through get_config (a failure already exited with
code 0), then load the git credentials — a credentials failure exits with
code 100 (main.rs line 86). An Except.error carries the exit code, an
Except.ok means the daemon reaches its main loop. -/
def startup_exit (configLoad : Except String ConfigBits)
    (credsLoad : Except ErrorArrayItem (List String)) :
    Except Nat (ConfigBits × List String) :=
  match get_config configLoad with
  | Except.error c => Except.error c
  | Except.ok cfg =>
      match get_git_credentials cfg.git credsLoad with
      | Except.error _ => Except.error 100
      | Except.ok creds => Except.ok (cfg, creds)

/-- Events the select arms of the main loop (main.rs lines 122-159) react
to: a reload signal (carrying the result of the get_config reload), the
graceful-exit signal, the interrupt signal, and the periodic health tick. -/
inductive MainEvent where
  | reload (configLoad : Except String ConfigBits)
  | gracefulSignal
  | ctrlC
  | healthTick

/-- Exit behavior of one main-loop event: the graceful-exit arm exits with
code 0 (main.rs line 145); a reload whose get_config fails exits with
code 0 (config.rs line 18); the interrupt arm only re-raises the
graceful-exit notification and the health tick never exits. -/
def main_loop_exit : MainEvent → Option Nat
  | MainEvent.reload cl =>
      match cl with
      | Except.error _ => some 0
      | Except.ok _ => none
  | MainEvent.gracefulSignal => some 0
  | MainEvent.ctrlC => none
  | MainEvent.healthTick => none

/-! ## Concrete fixtures -/

/-- A rev-parse output whose process failed: nonzero exit, empty stdout. -/
def failedRevParse : Output := ⟨false, "", "fatal: ambiguous argument HEAD"⟩

/-- A successful rev-parse output carrying a full 40-character commit id. -/
def hashOutA : Output := ⟨true, "deadbeef0123456789012345678901234567890a\n", ""⟩

/-- A successful rev-parse output for a distinct commit sharing the first
8 characters with hashOutA. -/
def hashOutB : Output := ⟨true, "deadbeefffffffffffffffffffffffffffffffff\n", ""⟩

/-- A pull output containing the up-to-date marker. -/
def upToDateOut : Output := ⟨true, "Already up to date.\n", ""⟩

/-- New-repo environment in which every step succeeds. -/
def newAllOk : NewEnv := ⟨Except.ok (), Except.ok (), Except.ok (), Except.ok ()⟩

/-- Cycle environment: existing repo, fetch succeeds, remote ahead,
checkout and pull succeed. -/
def envAheadAllOk : CycleEnv :=
  ⟨Except.ok (), true, ⟨Except.ok (), Except.ok true, Except.ok (), Except.ok ()⟩, newAllOk⟩

/-- Cycle environment: existing repo, fetch succeeds, remote not ahead. -/
def envUpToDate : CycleEnv :=
  ⟨Except.ok (), true, ⟨Except.ok (), Except.ok false, Except.ok (), Except.ok ()⟩, newAllOk⟩

/-- Project paths and identifiers used by the concrete fixtures. -/
def pathA : String := "proj"

/-- A second concrete project path. -/
def pathB : String := "projB"

/-- A third concrete project path. -/
def pathC : String := "projC"

/-- Credentials file named by the git config section of baseConfig. -/
def credsFile : String := "creds.toml"

/-- Message of a failing configuration load. -/
def missingCfgMsg : String := "missing config"

/-- Configuration slice used by the concrete states. -/
def baseConfig : ConfigBits :=
  ⟨false, some credsFile, 3, "prod", none, pkgName, none⟩

/-- A concrete shared daemon state with a clean error log. -/
def baseState : AppState :=
  ⟨pkgName, currentVersion, "", 0, 0, 7, 42, [], baseConfig, true, Status.Running, [], []⟩

/-- Distinct cycle failures, numbered. -/
def errN (n : Nat) : ErrorArrayItem := ⟨Errors.Git, "cycle failure " ++ toString n⟩

/-- The shared state after six consecutive failing worker cycles folded in
through repo_worker_fold, starting from the clean baseState. -/
def sixFailures : AppState :=
  List.foldl (fun s n => repo_worker_fold s (Except.error (errN n)) "a-b-main")
    baseState [1, 2, 3, 4, 5, 6]

/-- A persisted daemon state carrying a nonzero event counter and a
nonempty error history. -/
def persistedState : AppState :=
  { baseState with event_counter := 42, error_log := [authErr], status := Status.Idle }

/-! ## Theorems -/

/-- C10: is_remote_ahead returns true exactly when the full trimmed local
HEAD commit identity and the full trimmed remote-tracking commit identity
differ; the comparison is full string equality, so any two distinct
identities — in particular ones sharing an 8-character prefix — are judged
different. -/
theorem is_remote_ahead_full_identity :
    (∀ lo ro : Output,
      is_remote_ahead (Except.ok lo) (Except.ok ro) = Except.ok true ↔
        strTrim lo.stdout ≠ strTrim ro.stdout) ∧
    (∀ lo ro : Output,
      (strTrim lo.stdout).data.take 8 = (strTrim ro.stdout).data.take 8 →
      strTrim lo.stdout ≠ strTrim ro.stdout →
      is_remote_ahead (Except.ok lo) (Except.ok ro) = Except.ok true) := by
  constructor
  · intro lo ro
    simp [is_remote_ahead]
  · intro lo ro _ hne
    simp [is_remote_ahead, hne]

/-- Witness for C10: the two concrete commit identities of hashOutA and
hashOutB share their first 8 characters yet are judged different. -/
theorem is_remote_ahead_full_identity_witness :
    is_remote_ahead (Except.ok hashOutA) (Except.ok hashOutB) = Except.ok true :=
  is_remote_ahead_full_identity.2 hashOutA hashOutB (by decide) (by decide)

/-- C9 counterexample: when both rev-parse child processes exit
unsuccessfully (a failed commit-identity lookup), is_remote_ahead returns
Except.ok false — the failure is folded into the boolean comparison of two
empty strings instead of surfacing as an error. -/
theorem is_remote_ahead_swallow_counterexample :
    failedRevParse.success = false ∧
    is_remote_ahead (Except.ok failedRevParse) (Except.ok failedRevParse) =
      Except.ok false ∧
    exceptIsError
      (is_remote_ahead (Except.ok failedRevParse) (Except.ok failedRevParse)) =
      false :=
  ⟨rfl, rfl, rfl⟩

/-- C9 amended: fetch_updates reports every failure (missing token, spawn
failure, unsuccessful git exit), and is_remote_ahead propagates spawn
failures, but a rev-parse process that was spawned and then failed never
surfaces as an error from is_remote_ahead — its result is folded into the
boolean comparison. -/
theorem git_layer_error_reporting_amended :
    (∀ (t : Option String) (o : Except String Output),
      exceptIsError (fetch_updates t o) = false ↔
        (t ≠ none ∧ ∃ out, o = Except.ok out ∧ out.success = true)) ∧
    (∀ (e : String) (r : Except String Output),
      is_remote_ahead (Except.error e) r = Except.error e) ∧
    (∀ lo ro : Output,
      exceptIsError (is_remote_ahead (Except.ok lo) (Except.ok ro)) = false) := by
  refine ⟨?_, ?_, ?_⟩
  · intro t o
    cases t with
    | none => simp [fetch_updates, exceptIsError]
    | some tok =>
        cases o with
        | error s => simp [fetch_updates, exceptIsError]
        | ok out =>
            by_cases h : out.success = true
            · simp [fetch_updates, exceptIsError, h]
            · simp [fetch_updates, exceptIsError, h]
  · intro e r
    simp [is_remote_ahead]
  · intro lo ro
    simp [is_remote_ahead, exceptIsError]

/-- C8 counterexample: a pull output that contains no completion marker
string is classified as new data pulled (Except.ok true, an Updated
outcome), not as UpToDate (Except.ok false). -/
theorem handle_pull_output_no_marker_counterexample :
    containsSubstr updOut.stdout upToDateMarker = false ∧
    handle_pull_output (some updOut) = Except.ok true ∧
    handle_pull_output (some updOut) ≠ Except.ok false := by
  refine ⟨by decide, rfl, ?_⟩
  intro h
  rw [show handle_pull_output (some updOut) = Except.ok true from rfl] at h
  simp at h

/-- C8 amended: handle_pull_output treats output containing the marker
string as UpToDate (no new data), output lacking the marker as new data
pulled — never as an error — and the absence of any output as a no-op. -/
theorem handle_pull_output_amended (o : Output) :
    (containsSubstr o.stdout upToDateMarker = true →
      handle_pull_output (some o) = Except.ok false) ∧
    (containsSubstr o.stdout upToDateMarker = false →
      handle_pull_output (some o) = Except.ok true) ∧
    handle_pull_output none = Except.ok false := by
  refine ⟨?_, ?_, rfl⟩
  · intro h
    simp [handle_pull_output, h]
  · intro h
    simp [handle_pull_output, h]

/-- Witness for C8 amended: a concrete output containing the marker is
classified as no new data, and missing output is a no-op. -/
theorem handle_pull_output_amended_witness :
    handle_pull_output (some upToDateOut) = Except.ok false ∧
    handle_pull_output none = Except.ok false :=
  ⟨(handle_pull_output_amended upToDateOut).1 (by decide),
   (handle_pull_output_amended upToDateOut).2.2⟩

/-- Helper: the attempt count of the pull loop is bounded by the starting
index plus one plus the remaining budget. -/
theorem pull_loop_attempts_le (remaining : Nat) :
    ∀ (env : PullEnv) (path : String) (i : Nat) (ea : List ErrorArrayItem),
      (pull_loop env path i remaining ea).attempts ≤ i + 1 + remaining := by
  induction remaining with
  | zero =>
      intro env path i ea
      cases h : env.pullResults i with
      | ok output =>
          cases ho : handle_pull_output output with
          | ok d => simp [pull_loop, h, ho]
          | error e => simp [pull_loop, h, ho]
      | error e => simp [pull_loop, h]
  | succ r ih =>
      intro env path i ea
      cases h : env.pullResults i with
      | ok output =>
          cases ho : handle_pull_output output with
          | ok d =>
              simp [pull_loop, h, ho]
              try omega
          | error e =>
              simp [pull_loop, h, ho]
              try omega
      | error e =>
          cases hp : handle_pull_error env i e (ea ++ [e]) with
          | mk fst snd =>
              cases fst with
              | some res =>
                  simp [pull_loop, h, hp]
                  try omega
              | none =>
                  have hrec := ih env path (i + 1) snd
                  rw [pull_loop, h]
                  simp only [hp]
                  exact le_trans hrec (by omega)

/-- C1 counterexample: in an environment where every pull attempt fails
with an error that is neither a generic error nor a safe-directory
rejection, pull_updates returns a terminal failure after exactly one
attempt, with zero retry delays and zero budget consumed — not after 3
attempts separated by 3-second delays. -/
theorem pull_updates_no_retry_counterexample :
    pull_updates envAuth pathA = ⟨Except.error [authErr], 1, 0, 0⟩ ∧
    (pull_updates envAuth pathA).attempts ≠ 3 ∧
    (pull_updates envAuth pathA).delays = 0 :=
  ⟨rfl, by decide, rfl⟩

/-- C1 amended: a first pull attempt failing with an error that is neither
a generic error nor a safe-directory rejection is terminal immediately:
pull_updates returns the accumulated error list after exactly one attempt,
with no retry delay and no retry budget consumed (and in particular no
infinite loop). -/
theorem pull_updates_terminal_error_amended (env : PullEnv) (path : String)
    (e : ErrorArrayItem)
    (h0 : env.pullResults 0 = Except.error e)
    (h1 : e.err_type ≠ Errors.GeneralError)
    (h2 : containsSubstr e.err_mesg safeDirMarker = false) :
    pull_updates env path = ⟨Except.error [e], 1, 0, 0⟩ := by
  simp [pull_updates, pull_loop, h0, MAX_RETRIES, handle_pull_error, h1, h2]

/-- Witness for C1 amended, at the concrete environment envAuth. -/
theorem pull_updates_terminal_error_witness :
    pull_updates envAuth pathB = ⟨Except.error [authErr], 1, 0, 0⟩ :=
  pull_updates_terminal_error_amended envAuth pathB authErr rfl
    (by decide) (by decide)

/-- C2 counterexample: a pull failing with the safe-directory rejection is
remediated and the retried pull succeeds, but the remediation consumed one
retry-budget slot (final retries counter 1, not 0) and incurred one fixed
3-second delay. -/
theorem pull_remediation_budget_counterexample :
    pull_updates envSafe pathA = ⟨Except.ok true, 2, 1, 1⟩ ∧
    (pull_updates envSafe pathA).retries ≠ 0 :=
  ⟨rfl, by decide⟩

/-- C2 amended: a pull failing with an unsafe-directory rejection is
remediated (set-safe-directory then fetch) and the pull retried; the
remediation consumes one retry-budget slot and one fixed delay, and a pull
succeeding after remediation yields the successful outcome; the whole loop
is bounded by a hard ceiling of MAX_RETRIES + 1 total pull attempts. -/
theorem pull_remediation_amended :
    (∀ (env : PullEnv) (path : String) (e : ErrorArrayItem)
        (o : Option Output) (b : Bool),
      env.pullResults 0 = Except.error e →
      e.err_type ≠ Errors.GeneralError →
      containsSubstr e.err_mesg safeDirMarker = true →
      env.safeResults 0 = Except.ok () →
      env.fetchResults 0 = Except.ok () →
      env.pullResults 1 = Except.ok o →
      handle_pull_output o = Except.ok b →
      pull_updates env path = ⟨Except.ok b, 2, 1, 1⟩) ∧
    (∀ (env : PullEnv) (path : String),
      (pull_updates env path).attempts ≤ MAX_RETRIES + 1) := by
  constructor
  · intro env path e o b h0 h1 h2 hs hf h3 ho
    simp [pull_updates, pull_loop, h0, MAX_RETRIES, handle_pull_error,
      h1, h2, hs, hf, h3, ho]
  · intro env path
    have := pull_loop_attempts_le MAX_RETRIES env path 0 []
    simpa [pull_updates] using this

/-- Witness for C2 amended, at the concrete environment envSafe. -/
theorem pull_remediation_amended_witness :
    pull_updates envSafe pathC = ⟨Except.ok true, 2, 1, 1⟩ :=
  pull_remediation_amended.1 envSafe pathC safeErr (some updOut) true
    rfl (by decide) (by decide) rfl rfl rfl rfl

/-- C4 counterexample: in a cycle on an existing repository whose remote
is ahead and whose operations all succeed, the trace runs ensure-safe,
open, fetch, compare, then checkout, then pull — the pull does not precede
the checkout of the target branch. -/
theorem repo_worker_order_counterexample :
    (repo_worker_cycle envAheadAllOk).2 =
      [GitOp.ensureSafe, GitOp.openRepo, GitOp.fetch, GitOp.compareAhead,
       GitOp.checkout, GitOp.pull] ∧
    ¬ ((repo_worker_cycle envAheadAllOk).2.indexOf GitOp.pull <
        (repo_worker_cycle envAheadAllOk).2.indexOf GitOp.checkout) := by
  refine ⟨by decide, by decide⟩

/-- C4 amended: in every cycle on an existing repository path the order is
ensure-safe-directory, open, fetch, then the remote-ahead comparison; if
the remote is ahead, the checkout of the target branch precedes the pull;
if the remote is not ahead the outcome is UpToDate and neither pull nor
checkout is invoked. -/
theorem repo_worker_order_amended (env : CycleEnv) :
    (env.openOk = true → env.existing.fetchRes = Except.ok () →
      (repo_worker_cycle env).2.take 4 =
        [GitOp.ensureSafe, GitOp.openRepo, GitOp.fetch, GitOp.compareAhead]) ∧
    (env.openOk = true → env.existing.fetchRes = Except.ok () →
      env.existing.aheadRes = Except.ok true →
      env.existing.checkoutRes = Except.ok () →
      env.existing.pullRes = Except.ok () →
      repo_worker_cycle env =
        (Except.ok SyncKind.updated,
         [GitOp.ensureSafe, GitOp.openRepo, GitOp.fetch, GitOp.compareAhead,
          GitOp.checkout, GitOp.pull]) ∧
      (repo_worker_cycle env).2.indexOf GitOp.checkout <
        (repo_worker_cycle env).2.indexOf GitOp.pull) ∧
    (env.openOk = true → env.existing.fetchRes = Except.ok () →
      env.existing.aheadRes = Except.ok false →
      repo_worker_cycle env =
        (Except.ok SyncKind.upToDate,
         [GitOp.ensureSafe, GitOp.openRepo, GitOp.fetch, GitOp.compareAhead]) ∧
      GitOp.pull ∉ (repo_worker_cycle env).2 ∧
      GitOp.checkout ∉ (repo_worker_cycle env).2) := by
  refine ⟨?_, ?_, ?_⟩
  · intro hop hf
    cases ha : env.existing.aheadRes with
    | error s => simp [repo_worker_cycle, handle_existing_repo, hop, hf, ha]
    | ok b =>
        cases b with
        | true =>
            cases hc : env.existing.checkoutRes with
            | error ce =>
                simp [repo_worker_cycle, handle_existing_repo, hop, hf, ha, hc]
            | ok u =>
                cases hpl : env.existing.pullRes with
                | error pe =>
                    simp [repo_worker_cycle, handle_existing_repo, hop, hf, ha,
                      hc, hpl]
                | ok v =>
                    simp [repo_worker_cycle, handle_existing_repo, hop, hf, ha,
                      hc, hpl]
        | false => simp [repo_worker_cycle, handle_existing_repo, hop, hf, ha]
  · intro hop hf ha hc hpl
    constructor
    · simp [repo_worker_cycle, handle_existing_repo, hop, hf, ha, hc, hpl]
    · simp [repo_worker_cycle, handle_existing_repo, hop, hf, ha, hc, hpl,
        List.indexOf]
      decide
  · intro hop hf ha
    refine ⟨?_, ?_, ?_⟩ <;>
      simp [repo_worker_cycle, handle_existing_repo, hop, hf, ha]

/-- Witness for C4 amended: the not-ahead cycle envUpToDate yields
UpToDate with no pull and no checkout in its trace. -/
theorem repo_worker_order_amended_witness :
    repo_worker_cycle envUpToDate =
      (Except.ok SyncKind.upToDate,
       [GitOp.ensureSafe, GitOp.openRepo, GitOp.fetch, GitOp.compareAhead]) ∧
    GitOp.pull ∉ (repo_worker_cycle envUpToDate).2 ∧
    GitOp.checkout ∉ (repo_worker_cycle envUpToDate).2 :=
  (repo_worker_order_amended envUpToDate).2.2 rfl rfl rfl

/-- C5: folding a cycle result into the shared state increments the event
counter by exactly one on every non-failure outcome (UpToDate included)
and leaves it unchanged on a failure, which is appended to the error log
instead. -/
theorem repo_worker_fold_event_counter (s : AppState)
    (res : Except ErrorArrayItem SyncKind) (rid : String) :
    (∀ k : SyncKind, res = Except.ok k →
      (repo_worker_fold s res rid).event_counter = s.event_counter + 1) ∧
    (∀ e : ErrorArrayItem, res = Except.error e →
      (repo_worker_fold s res rid).event_counter = s.event_counter ∧
      e ∈ (repo_worker_fold s res rid).error_log) := by
  constructor
  · intro k hk
    subst hk
    simp only [repo_worker_fold, update_state_wrapper, update_state]
    split <;> rfl
  · intro e he
    subst he
    simp [repo_worker_fold, log_error, update_state]

/-- Witness for C5: a concrete UpToDate cycle increments the counter of
baseState by one; a concrete failing cycle leaves it unchanged and appends
the failure. -/
theorem repo_worker_fold_event_counter_witness :
    (repo_worker_fold baseState (Except.ok SyncKind.upToDate) "a-b").event_counter =
      baseState.event_counter + 1 ∧
    (repo_worker_fold baseState (Except.error authErr) "a-b").event_counter =
      baseState.event_counter ∧
    authErr ∈ (repo_worker_fold baseState (Except.error authErr) "a-b").error_log :=
  ⟨(repo_worker_fold_event_counter baseState (Except.ok SyncKind.upToDate) "a-b").1
      SyncKind.upToDate rfl,
   (repo_worker_fold_event_counter baseState (Except.error authErr) "a-b").2
      authErr rfl⟩

/-- C3 counterexample: after six failing cycles folded into a clean state
the error log holds six entries (exceeding the capacity of 5), and the
next update_state_wrapper call keeps the first five entries and discards
the sixth — after the 6th failure the 1st recorded error is present and
the 6th absent, the reverse of FIFO eviction. -/
theorem error_log_eviction_counterexample :
    sixFailures.error_log.length = 6 ∧
    (update_state_wrapper sixFailures).error_log =
      [errN 1, errN 2, errN 3, errN 4, errN 5] ∧
    errN 1 ∈ (update_state_wrapper sixFailures).error_log ∧
    errN 6 ∉ (update_state_wrapper sixFailures).error_log ∧
    (update_state_wrapper sixFailures).data = truncMsg 6 := by
  refine ⟨by decide, by decide, by decide, by decide, by decide⟩

/-- C3 amended: the error log can transiently exceed the capacity of 5
between failures, but after any update_state_wrapper call its length is at
most 5; when the log was longer than 5 the wrapper keeps the oldest 5
entries and discards the newest ones beyond them (so after a 6th failure
the 1st error is present and the 6th absent) and rewrites the description
to note the truncation; a log within capacity is left unchanged. -/
theorem error_log_truncation_amended (s : AppState) :
    (update_state_wrapper s).error_log.length ≤ error_array_max_size ∧
    (error_array_max_size < s.error_log.length →
      (update_state_wrapper s).error_log = s.error_log.take error_array_max_size ∧
      (update_state_wrapper s).data = truncMsg s.error_log.length) ∧
    (s.error_log.length ≤ error_array_max_size → update_state_wrapper s = s) := by
  refine ⟨?_, ?_, ?_⟩
  · by_cases h : error_array_max_size < s.error_log.length
    · simp [update_state_wrapper, update_state, h]
    · simp only [update_state_wrapper, update_state, if_neg h]
      omega
  · intro h
    simp [update_state_wrapper, update_state, h]
  · intro h
    have h2 : ¬ (error_array_max_size < s.error_log.length) := by omega
    simp [update_state_wrapper, update_state, h2]

/-- Witness for C3 amended, at the concrete over-capacity state
sixFailures. -/
theorem error_log_truncation_amended_witness :
    (update_state_wrapper sixFailures).error_log =
      sixFailures.error_log.take error_array_max_size ∧
    (update_state_wrapper sixFailures).data =
      truncMsg sixFailures.error_log.length :=
  (error_log_truncation_amended sixFailures).2.1 (by decide)

/-- C6 counterexample: restoring from a persisted record carrying event
counter 42 and a nonempty error history yields a state whose event counter
is 0 and whose error log is empty — the persisted values are not resumed. -/
theorem generate_state_reset_counterexample :
    persistedState.event_counter = 42 ∧
    persistedState.error_log ≠ [] ∧
    (generate_state (Except.ok persistedState) baseConfig 100 77).event_counter = 0 ∧
    (generate_state (Except.ok persistedState) baseConfig 100 77).error_log = [] := by
  refine ⟨rfl, by decide, rfl, rfl⟩

/-- C6 amended: at startup a persisted record, when present, is read and
used as the base of the restored state (its status and name carry over),
but the event counter is reset to 0 and the error history cleared rather
than resumed; when no record loads, a fresh state also starts at 0 with an
empty log. -/
theorem generate_state_amended (ld : AppState) (cfg : ConfigBits)
    (now pid : Nat) (msg : String) :
    (generate_state (Except.ok ld) cfg now pid).event_counter = 0 ∧
    (generate_state (Except.ok ld) cfg now pid).error_log = [] ∧
    (generate_state (Except.ok ld) cfg now pid).status = ld.status ∧
    (generate_state (Except.ok ld) cfg now pid).name = ld.name ∧
    (generate_state (Except.error msg) cfg now pid).event_counter = 0 ∧
    (generate_state (Except.error msg) cfg now pid).error_log = [] := by
  refine ⟨rfl, rfl, rfl, rfl, rfl, rfl⟩

/-- C7 counterexample: a missing or invalid configuration at startup makes
the process exit with code 0 — the same code as a graceful shutdown, not
the distinct non-zero code 100 the claim requires. -/
theorem exit_code_config_counterexample :
    startup_exit (Except.error missingCfgMsg) (Except.ok []) =
      Except.error 0 ∧
    (0 : Nat) ≠ 100 := by
  refine ⟨rfl, by decide⟩

/-- C7 amended: the daemon exits with code 0 on graceful shutdown and also
on a configuration-load failure (at startup or on a reload); it exits with
code 100 exactly when the configuration loads but the git credentials do
not; every exit code is 0 or 100 and the interrupt and health-tick arms of
the main loop never exit. -/
theorem exit_codes_amended (cl : Except String ConfigBits)
    (cr : Except ErrorArrayItem (List String)) :
    (∀ c : Nat, startup_exit cl cr = Except.error c → c = 0 ∨ c = 100) ∧
    (∀ s : String, cl = Except.error s → startup_exit cl cr = Except.error 0) ∧
    (∀ cfg : ConfigBits, cl = Except.ok cfg →
      (cfg.git = none ∨ exceptIsError cr = true) →
      startup_exit cl cr = Except.error 100) ∧
    (∀ (ev : MainEvent) (n : Nat), main_loop_exit ev = some n → n = 0) ∧
    main_loop_exit MainEvent.gracefulSignal = some 0 := by
  refine ⟨?_, ?_, ?_, ?_, rfl⟩
  · intro c hc
    cases cl with
    | error s =>
        simp [startup_exit, get_config] at hc
        omega
    | ok cfg =>
        cases hg : cfg.git with
        | none =>
            simp [startup_exit, get_config, get_git_credentials, hg] at hc
            omega
        | some f =>
            cases cr with
            | error e =>
                simp [startup_exit, get_config, get_git_credentials, hg] at hc
                omega
            | ok creds =>
                simp [startup_exit, get_config, get_git_credentials, hg] at hc
  · intro s hs
    subst hs
    rfl
  · intro cfg hcfg hbad
    subst hcfg
    cases hbad with
    | inl hg => simp [startup_exit, get_config, get_git_credentials, hg]
    | inr he =>
        cases hg : cfg.git with
        | none => simp [startup_exit, get_config, get_git_credentials, hg]
        | some f =>
            cases cr with
            | error e => simp [startup_exit, get_config, get_git_credentials, hg]
            | ok creds => simp [exceptIsError] at he
  · intro ev n hn
    cases ev with
    | reload cfgl =>
        cases cfgl with
        | error s => simp [main_loop_exit] at hn; omega
        | ok c => simp [main_loop_exit] at hn
    | gracefulSignal => simp [main_loop_exit] at hn; omega
    | ctrlC => simp [main_loop_exit] at hn
    | healthTick => simp [main_loop_exit] at hn

/-- Witness for C7 amended: the concrete credentials failure exits 100 and
the graceful signal exits 0. -/
theorem exit_codes_amended_witness :
    startup_exit (Except.ok baseConfig) (Except.error authErr) =
      Except.error 100 ∧
    main_loop_exit MainEvent.gracefulSignal = some 0 :=
  ⟨(exit_codes_amended (Except.ok baseConfig) (Except.error authErr)).2.2.1
      baseConfig rfl (Or.inr rfl),
   (exit_codes_amended (Except.ok baseConfig) (Except.error authErr)).2.2.2.2⟩

end GitMonitor
